import Mathlib

/-!
Verification of the MkDocs pre-build hook in `docs/hooks.py` of numtide/treefmt.

The hook is:

  def on_pre_build(**kwargs):
      with Path("./snippets/usage.txt").open("w") as f:
          subprocess.run(["treefmt", "--help"], stdout=f, check=True)

We embed its observable behaviour over an explicit model of the filesystem
and of the operating-system environment (whether the destination path can be
opened for writing, and how spawning the external command behaves), together
with an event trace recording file-handle and process-creation effects.
-/

namespace TreefmtDocsHook

/-- Raw byte sequences, as produced on the child's standard output and stored
in files. -/
abbrev Bytes := List Nat

/-- A flat filesystem: an association list from path to file contents.
A path absent from the list is an absent file. -/
structure FS where
  files : List (String × Bytes)
deriving DecidableEq, Repr

/-- Look a path up in an association list of files. -/
def lookupFile : List (String × Bytes) → String → Option Bytes
  | [], _ => none
  | e :: rest, p => if e.1 = p then some e.2 else lookupFile rest p

/-- Drop every entry for a path from an association list of files. -/
def removeFile : List (String × Bytes) → String → List (String × Bytes)
  | [], _ => []
  | e :: rest, p => if e.1 = p then removeFile rest p else e :: removeFile rest p

/-- Contents of the file at path `p`, or `none` when the file is absent. -/
def FS.read (fs : FS) (p : String) : Option Bytes :=
  lookupFile fs.files p

/-- Replace (or create) the file at path `p` with contents `v`. -/
def FS.write (fs : FS) (p : String) (v : Bytes) : FS :=
  ⟨(p, v) :: removeFile fs.files p⟩

/-- The exceptions `on_pre_build` can let escape: the OSError from
`Path.open` (filesystem failure), the FileNotFoundError from `subprocess.run`
when the executable is not on the search path, the OSError when process
creation itself fails, and the CalledProcessError raised by `check=True` on a
non-zero exit status. -/
inductive HookError where
  | fileSystemError
  | lookupError
  | launchError
  | calledProcessError (exitCode : Nat)
deriving DecidableEq, Repr

/-- Termination of the hook: normal return (Python returns `None`: no
value) or an escaping exception. -/
inductive HookResult where
  | ok
  | error (e : HookError)
deriving DecidableEq, Repr

/-- How the operating system responds to spawning `treefmt --help`:
the executable is not resolvable on the search path, process creation fails,
or the child runs, writing `stdout` and `stderr` bytes and terminating with
`exitCode`. -/
inductive SpawnBehavior where
  | notFound
  | launchFailure
  | ran (stdout : Bytes) (stderr : Bytes) (exitCode : Nat)
deriving DecidableEq, Repr

/-- The environment of one invocation: whether the destination path can be
opened for writing (parent directory present, permission granted), and the
behaviour of the external command. -/
structure Env where
  canOpenOutput : Bool
  spawn : SpawnBehavior
deriving DecidableEq, Repr

/-- The open-ended keyword arguments the MkDocs host passes to the hook. -/
structure KwArgs where
  pairs : List (String × String)
deriving DecidableEq, Repr

/-- Observable events of one invocation: a file opened in write mode (which
creates or truncates it), a file handle closed, and a child process launched
and run with the given command line. -/
inductive Event where
  | openWrite (path : String)
  | closeFile (path : String)
  | spawnProc (cmd : List String)
deriving DecidableEq, Repr

/-- The full outcome of one invocation: how the hook terminated, the final
filesystem, and the event trace. -/
structure Outcome where
  result : HookResult
  fs : FS
  events : List Event
deriving DecidableEq, Repr

/-- The hard-coded destination path `Path("./snippets/usage.txt")`. -/
def usagePath : String := "./snippets/usage.txt"

/-- The hard-coded command line `["treefmt", "--help"]`. -/
def treefmtCmd : List String := ["treefmt", "--help"]

/-- Shallow embedding of `on_pre_build` from `docs/hooks.py`.

Mirrors the Python statement by statement: `Path("./snippets/usage.txt").open("w")`
either raises an OSError (when the environment does not allow opening the
destination for writing) before anything else happens, or truncates/creates
the file to empty; then `subprocess.run(["treefmt", "--help"], stdout=f,
check=True)` either raises FileNotFoundError (executable not on the search
path), raises an OSError (process creation failed), or runs the child with
its standard output redirected into the open file, raising
CalledProcessError on a non-zero exit status.  The `with` block closes the
file handle on every one of these paths, and `kwargs` is never consulted. -/
def on_pre_build (kwargs : KwArgs) (env : Env) (fs : FS) : Outcome :=
  if env.canOpenOutput then
    let fs1 := fs.write usagePath []
    match env.spawn with
    | .notFound =>
        { result := .error .lookupError
          fs := fs1
          events := [.openWrite usagePath, .closeFile usagePath] }
    | .launchFailure =>
        { result := .error .launchError
          fs := fs1
          events := [.openWrite usagePath, .closeFile usagePath] }
    | .ran out _err code =>
        let fs2 := fs1.write usagePath out
        { result := if code = 0 then .ok else .error (.calledProcessError code)
          fs := fs2
          events := [.openWrite usagePath, .spawnProc treefmtCmd,
                     .closeFile usagePath] }
  else
    { result := .error .fileSystemError
      fs := fs
      events := [] }

/-- The command lines of the child processes recorded in a trace. -/
def spawnedProcs (events : List Event) : List (List String) :=
  events.filterMap (fun e =>
    match e with
    | .spawnProc c => some c
    | _ => none)

/-- A trace is handle-safe when every file opened for writing is closed
later in the trace. -/
def allOpensClosed : List Event → Bool
  | [] => true
  | Event.openWrite p :: rest =>
      rest.contains (Event.closeFile p) && allOpensClosed rest
  | _ :: rest => allOpensClosed rest

theorem FS.read_write_self (fs : FS) (p : String) (v : Bytes) :
    (fs.write p v).read p = some v := by
  simp [FS.read, FS.write, lookupFile]

theorem lookupFile_removeFile_ne (l : List (String × Bytes)) (p q : String)
    (h : q ≠ p) :
    lookupFile (removeFile l p) q = lookupFile l q := by
  induction l with
  | nil => rfl
  | cons a l ih =>
    by_cases hp : a.1 = p
    · have hpq : p ≠ q := fun hpq => h hpq.symm
      simp [removeFile, lookupFile, hp, hpq, ih]
    · by_cases hq : a.1 = q
      · simp [removeFile, lookupFile, hp, hq, h]
      · simp [removeFile, lookupFile, hp, hq, ih]

theorem FS.read_write_ne (fs : FS) (p q : String) (v : Bytes) (h : q ≠ p) :
    (fs.write p v).read q = fs.read q := by
  have hpq : p ≠ q := fun hpq => h hpq.symm
  simp [FS.read, FS.write, lookupFile, hpq, lookupFile_removeFile_ne fs.files p q h]

/-- C1: when the destination file opens and the external command terminates
with exit status zero, the hook returns no value (normal termination) and the
destination file's final contents are exactly the bytes the child wrote to
its standard output, nothing prepended, appended, or transformed. -/
theorem c1_success_writes_exact_stdout (kwargs : KwArgs) (fs : FS)
    (out err : Bytes) :
    (on_pre_build kwargs ⟨true, .ran out err 0⟩ fs).result = HookResult.ok
    ∧ (on_pre_build kwargs ⟨true, .ran out err 0⟩ fs).fs.read usagePath
        = some out := by
  refine ⟨rfl, ?_⟩
  simp [on_pre_build, FS.read_write_self]

/-- C2: when the external executable runs but terminates with a non-zero
exit status, the hook raises the non-zero-exit error carrying that status,
and the bytes the child wrote to its standard output before exiting remain
in the destination file: no cleanup or rollback is performed. -/
theorem c2_nonzero_exit_keeps_partial_bytes (kwargs : KwArgs) (fs : FS)
    (out err : Bytes) (code : Nat) (h : code ≠ 0) :
    (on_pre_build kwargs ⟨true, .ran out err code⟩ fs).result
        = HookResult.error (HookError.calledProcessError code)
    ∧ (on_pre_build kwargs ⟨true, .ran out err code⟩ fs).fs.read usagePath
        = some out := by
  refine ⟨?_, ?_⟩
  · simp [on_pre_build, h]
  · simp [on_pre_build, FS.read_write_self]

-- Concrete run of c2: exit status 1 after writing the byte 85.
theorem c2_nonzero_exit_keeps_partial_bytes_witness :
    (on_pre_build ⟨[]⟩ ⟨true, .ran [85] [] 1⟩ ⟨[]⟩).result
        = HookResult.error (HookError.calledProcessError 1)
    ∧ (on_pre_build ⟨[]⟩ ⟨true, .ran [85] [] 1⟩ ⟨[]⟩).fs.read usagePath
        = some [85] :=
  c2_nonzero_exit_keeps_partial_bytes ⟨[]⟩ ⟨[]⟩ [85] [] 1 (by decide)

/-- C3: when the external executable cannot be resolved on the search path,
the hook raises the lookup error, and the destination file is left empty
even if a previous successful run had filled it, because the file was opened
in truncate mode before the launch was attempted.  This holds for every
starting filesystem, in particular for one holding stale content at the
destination path. -/
theorem c3_lookup_failure_truncates (kwargs : KwArgs) (fs : FS) :
    (on_pre_build kwargs ⟨true, .notFound⟩ fs).result
        = HookResult.error HookError.lookupError
    ∧ (on_pre_build kwargs ⟨true, .notFound⟩ fs).fs.read usagePath
        = some [] := by
  refine ⟨rfl, ?_⟩
  simp [on_pre_build, FS.read_write_self]

/-- C4: when the destination path cannot be opened for writing, the hook
fails with the filesystem error and the filesystem is left completely
unchanged: no bytes are written to any location. -/
theorem c4_open_failure_writes_nothing (kwargs : KwArgs) (sp : SpawnBehavior)
    (fs : FS) :
    (on_pre_build kwargs ⟨false, sp⟩ fs).result
        = HookResult.error HookError.fileSystemError
    ∧ (on_pre_build kwargs ⟨false, sp⟩ fs).fs = fs :=
  ⟨rfl, rfl⟩

/-- C5: running the hook twice in succession, with the external tool
behaving identically both times, leaves the destination file with the same
contents as running it once: each run truncates the file before writing, so
nothing accumulates across runs. -/
theorem c5_rerun_idempotent_contents (kwargs : KwArgs) (env : Env) (fs : FS) :
    (on_pre_build kwargs env (on_pre_build kwargs env fs).fs).fs.read usagePath
      = (on_pre_build kwargs env fs).fs.read usagePath := by
  obtain ⟨copen, sp⟩ := env
  cases copen <;> cases sp <;> simp [on_pre_build, FS.read_write_self]

/-- C6: on every execution path — open failure, lookup failure, launch
failure, non-zero exit, and normal completion — every file handle the hook
opens is closed before the hook returns or propagates its error: the event
trace pairs each write-mode open with a later close. -/
theorem c6_handle_always_closed (kwargs : KwArgs) (env : Env) (fs : FS) :
    allOpensClosed (on_pre_build kwargs env fs).events = true := by
  obtain ⟨copen, sp⟩ := env
  cases copen <;> cases sp <;> rfl

/-- C7: two invocations differing only in the keyword arguments passed by
the host build tool have identical outcomes — same result, same final
filesystem, same event trace: the context arguments are ignored entirely. -/
theorem c7_kwargs_ignored (k1 k2 : KwArgs) (env : Env) (fs : FS) :
    on_pre_build k1 env fs = on_pre_build k2 env fs := rfl

-- C8 as frozen claims that EVERY invocation spawns exactly one child
-- process.  On the path where the destination cannot be opened for writing,
-- the hook raises the filesystem error before any spawn: zero processes.
theorem c8_counterexample :
    ¬ (spawnedProcs (on_pre_build ⟨[]⟩ ⟨false, .ran [] [] 0⟩ ⟨[]⟩).events).length
        = 1 := by
  decide

/-- C8 (amended): every invocation spawns at most one child process, any
spawned process runs exactly the executable "treefmt" with argument list
["--help"], the only path whose contents can change is
"./snippets/usage.txt" (every other file reads back unchanged), and whenever
the hook completes normally exactly one such child process was spawned. -/
theorem c8_frame_amended (kwargs : KwArgs) (env : Env) (fs : FS) :
    (spawnedProcs (on_pre_build kwargs env fs).events).length ≤ 1
    ∧ (∀ c ∈ spawnedProcs (on_pre_build kwargs env fs).events, c = treefmtCmd)
    ∧ (∀ p, p ≠ usagePath → (on_pre_build kwargs env fs).fs.read p = fs.read p)
    ∧ ((on_pre_build kwargs env fs).result = HookResult.ok
        → (spawnedProcs (on_pre_build kwargs env fs).events).length = 1) := by
  obtain ⟨copen, sp⟩ := env
  refine ⟨?_, ?_, ?_, ?_⟩
  · cases copen <;> cases sp <;> simp [on_pre_build, spawnedProcs]
  · cases copen <;> cases sp <;> simp [on_pre_build, spawnedProcs, treefmtCmd]
  · intro p hp
    cases copen <;> cases sp <;>
      simp [on_pre_build, FS.read_write_ne _ _ _ _ hp]
  · cases copen <;> cases sp <;> simp [on_pre_build, spawnedProcs]

-- Concrete run of c8_frame_amended: a successful invocation leaves the
-- unrelated file "a.txt" untouched and spawned exactly one process.
theorem c8_frame_amended_witness :
    (on_pre_build ⟨[]⟩ ⟨true, .ran [7] [] 0⟩ ⟨[("a.txt", [1])]⟩).fs.read "a.txt"
        = some [1]
    ∧ (spawnedProcs (on_pre_build ⟨[]⟩ ⟨true, .ran [7] [] 0⟩
        ⟨[("a.txt", [1])]⟩).events).length = 1 :=
  ⟨((c8_frame_amended ⟨[]⟩ ⟨true, .ran [7] [] 0⟩ ⟨[("a.txt", [1])]⟩).2.2.1
      "a.txt" (by decide)).trans (by decide),
   (c8_frame_amended ⟨[]⟩ ⟨true, .ran [7] [] 0⟩ ⟨[("a.txt", [1])]⟩).2.2.2
      (by decide)⟩

/-- C9: when opening the destination file for writing fails, the hook
propagates the filesystem error and its event trace records no spawned
child process: no process creation is attempted on that path. -/
theorem c9_no_spawn_on_open_failure (kwargs : KwArgs) (env : Env) (fs : FS)
    (h : env.canOpenOutput = false) :
    (on_pre_build kwargs env fs).result = HookResult.error HookError.fileSystemError
    ∧ spawnedProcs (on_pre_build kwargs env fs).events = [] := by
  obtain ⟨copen, sp⟩ := env
  simp only at h
  subst h
  exact ⟨rfl, rfl⟩

-- Concrete run of c9: open denied while the tool is absent from the path.
theorem c9_no_spawn_on_open_failure_witness :
    (on_pre_build ⟨[]⟩ ⟨false, .notFound⟩ ⟨[]⟩).result
        = HookResult.error HookError.fileSystemError
    ∧ spawnedProcs (on_pre_build ⟨[]⟩ ⟨false, .notFound⟩ ⟨[]⟩).events = [] :=
  c9_no_spawn_on_open_failure ⟨[]⟩ ⟨false, .notFound⟩ ⟨[]⟩ rfl

/-- C10: only the child's standard-output stream is redirected into the
destination file; two invocations whose external tool writes the same bytes
to standard output and exits with the same status, but writes arbitrarily
different bytes to standard error, have identical outcomes — same result,
same final filesystem, same event trace. -/
theorem c10_stderr_never_reaches_file (kwargs : KwArgs) (copen : Bool)
    (fs : FS) (out err1 err2 : Bytes) (code : Nat) :
    on_pre_build kwargs ⟨copen, .ran out err1 code⟩ fs
      = on_pre_build kwargs ⟨copen, .ran out err2 code⟩ fs := rfl

end TreefmtDocsHook
